import Mathlib

/-!
# Verification of the tradebot decision-and-execution core

A shallow embedding, in Lean 4, of the trading core of this repository:

* `src/risk/manager.py`          — `RiskManager` (admission, sizing, position bookkeeping, PnL),
* `src/strategies/signal_processor.py` — `SignalProcessor` (signal rule, volume veto, history),
* `src/execution/engine.py`      — `ExecutionEngine` (order lifecycle, fill waiting, pending map).

Modelling conventions:

* Python floats are modelled as exact rationals (`ℚ`); floating-point rounding is out of scope.
* The wall clock (`datetime.utcnow()`) is passed explicitly as a `now : ℚ` argument to the
  methods that read it.
* Logging calls are effect-free and are omitted.
* The venue/gateway (`coinbase.rest.RESTClient`) and the `ta`/`pandas` indicator library are
  external collaborators; their responses enter the model as explicit oracle arguments.
* Python `Order` objects are mutated in place and aliased by the pending map and the history
  list.  The model therefore keeps an arena `orders : List Order` of every order object ever
  created; the pending map and the history store arena indices (object identity).
-/

namespace TradeBot

/-- `Signal` enum from `src/strategies/signal_processor.py`. -/
inductive Signal
  | BUY
  | SELL
  | HOLD
deriving DecidableEq, Repr

/-- `TradingConfig` from `src/config.py`, restricted to the fields the modelled core reads.
API credentials, websocket/data-collection and logging fields are consumed only by the
out-of-scope collaborators and are omitted. -/
structure TradingConfig where
  trading_mode : String
  trading_pair : String
  order_type : String
  max_position_size : ℚ
  stop_loss_percentage : ℚ
  take_profit_percentage : ℚ
  min_order_size : ℚ
  cooldown_period : ℚ
  rsi_period : ℕ
  rsi_oversold : ℚ
  rsi_overbought : ℚ
  bollinger_period : ℕ
  bollinger_std : ℚ
deriving DecidableEq, Repr

/-- `PositionStatus` enum from `src/risk/manager.py`. -/
inductive PositionStatus
  | NONE
  | OPEN
  | CLOSING
deriving DecidableEq, Repr

/-- `Position` dataclass from `src/risk/manager.py` (`entry_time` is a clock value). -/
structure Position where
  entry_price : ℚ
  size : ℚ
  entry_time : ℚ
  status : PositionStatus
  stop_loss : ℚ
  take_profit : ℚ
  unrealized_pnl : ℚ := 0
  realized_pnl : ℚ := 0
deriving DecidableEq, Repr

/-- One entry of `RiskManager.trade_history` (a Python dict with keys
`timestamp`, `type` (`"open"`/`"close"`), `price`, `size` and `value` resp. `pnl`). -/
inductive TradeRecord
  | openTrade (timestamp price size value : ℚ)
  | closeTrade (timestamp price size pnl : ℚ)
deriving DecidableEq, Repr

/-- Mutable state of `RiskManager` (`src/risk/manager.py`, `__init__`). -/
structure RiskManager where
  config : TradingConfig
  balance : ℚ := 0
  available_balance : ℚ := 0
  current_position : Option Position := none
  trade_history : List TradeRecord := []
  last_trade_time : Option ℚ := none
  total_pnl : ℚ := 0
  win_rate : ℚ := 0
  max_drawdown : ℚ := 0
  peak_balance : ℚ := 0
deriving DecidableEq, Repr

/-- `RiskManager._calculate_position_size`. -/
def RiskManager.calculatePositionSize (rm : RiskManager) (current_price : ℚ) : ℚ :=
  rm.available_balance * rm.config.max_position_size / current_price

/-- `RiskManager._check_cooldown` (`now` stands for `datetime.utcnow()`). -/
def RiskManager.checkCooldown (rm : RiskManager) (now : ℚ) : Bool :=
  match rm.last_trade_time with
  | none => true
  | some t => decide (now - t ≥ rm.config.cooldown_period)

/-- `RiskManager._get_cooldown_remaining` (`int(...)` of a non-negative float is its floor). -/
def RiskManager.cooldownRemaining (rm : RiskManager) (now : ℚ) : ℤ :=
  match rm.last_trade_time with
  | none => 0
  | some t => ⌊max 0 (rm.config.cooldown_period - (now - t))⌋

/-- `RiskManager.can_trade`.  Returns `(allowed, reason)`; the Python `:.2f` formatting of the
dollar amounts inside the reason strings is replaced by plain `toString`. -/
def RiskManager.canTrade (rm : RiskManager) (now : ℚ) (signal : Signal)
    (current_price : ℚ) : Bool × String :=
  if rm.config.trading_mode ≠ "paper" ∧ rm.config.trading_mode ≠ "live" then
    (true, "Test mode - trading allowed")
  else if rm.checkCooldown now = false then
    (false, "Cooldown period active: " ++ toString (rm.cooldownRemaining now) ++ "s remaining")
  else if signal = .BUY ∧ rm.current_position.isSome then
    (false, "Already have an open position")
  else if signal = .SELL ∧ rm.current_position.isNone then
    (false, "No position to sell")
  else if signal = .BUY ∧
      rm.calculatePositionSize current_price * current_price < rm.config.min_order_size then
    (false, "Position size below minimum: $" ++
      toString (rm.calculatePositionSize current_price * current_price))
  else if signal = .BUY ∧ rm.available_balance < rm.config.min_order_size then
    (false, "Insufficient balance: $" ++ toString rm.available_balance)
  else
    (true, "Trade allowed")

/-- Return value of `RiskManager.calculate_order_details` (a Python dict whose key set depends
on the branch; the `side` key is carried by the constructor). -/
inductive OrderDetails
  | buyDetails (size value stop_loss take_profit risk_amount potential_profit : ℚ)
  | sellDetails (size value entry_price exit_price pnl : ℚ)
  | empty
deriving DecidableEq, Repr

/-- The `side` key of the details dict (`"buy"` / `"sell"`; absent for the empty dict). -/
def OrderDetails.side : OrderDetails → String
  | .buyDetails .. => "buy"
  | .sellDetails .. => "sell"
  | .empty => ""

/-- The `size` key of the details dict (0 for the empty dict, where Python would `KeyError`;
the engine never reads it there because empty details abort execution). -/
def OrderDetails.size : OrderDetails → ℚ
  | .buyDetails s _ _ _ _ _ => s
  | .sellDetails s _ _ _ _ => s
  | .empty => 0

/-- The `value` key of the details dict (0 for the empty dict). -/
def OrderDetails.value : OrderDetails → ℚ
  | .buyDetails _ v _ _ _ _ => v
  | .sellDetails _ v _ _ _ => v
  | .empty => 0

/-- The `stop_loss` key (only present on the BUY branch; 0 elsewhere, never read there). -/
def OrderDetails.stopLoss : OrderDetails → ℚ
  | .buyDetails _ _ sl _ _ _ => sl
  | _ => 0

/-- The `take_profit` key (only present on the BUY branch; 0 elsewhere, never read there). -/
def OrderDetails.takeProfit : OrderDetails → ℚ
  | .buyDetails _ _ _ tp _ _ => tp
  | _ => 0

/-- `RiskManager.calculate_order_details`. -/
def RiskManager.calculateOrderDetails (rm : RiskManager) (signal : Signal)
    (current_price : ℚ) (signal_strength : ℚ) : OrderDetails :=
  if signal = .BUY then
    let base_size := rm.calculatePositionSize current_price
    let adjusted_size := base_size * signal_strength
    let stop_loss := current_price * (1 - rm.config.stop_loss_percentage / 100)
    let take_profit := current_price * (1 + rm.config.take_profit_percentage / 100)
    .buyDetails adjusted_size (adjusted_size * current_price) stop_loss take_profit
      (adjusted_size * (current_price - stop_loss))
      (adjusted_size * (take_profit - current_price))
  else
    match signal, rm.current_position with
    | .SELL, some pos =>
        .sellDetails pos.size (pos.size * current_price) pos.entry_price current_price
          (pos.size * (current_price - pos.entry_price))
    | _, _ => .empty

/-- `RiskManager.open_position` (`now` stands for `datetime.utcnow()`). -/
def RiskManager.openPosition (rm : RiskManager) (now entry_price size stop_loss
    take_profit : ℚ) : RiskManager :=
  let position_value := size * entry_price
  { rm with
      current_position := some
        { entry_price := entry_price
          size := size
          entry_time := now
          status := .OPEN
          stop_loss := stop_loss
          take_profit := take_profit }
      available_balance := rm.available_balance - position_value
      last_trade_time := some now
      trade_history := rm.trade_history ++ [TradeRecord.openTrade now entry_price size position_value] }

/-- `RiskManager._update_metrics`. -/
def RiskManager.updateMetrics (rm : RiskManager) : RiskManager :=
  let winning := rm.trade_history.filter fun t =>
    match t with
    | .closeTrade _ _ _ pnl => decide (pnl > 0)
    | _ => false
  let losing := rm.trade_history.filter fun t =>
    match t with
    | .closeTrade _ _ _ pnl => decide (pnl ≤ 0)
    | _ => false
  let total_closed := winning.length + losing.length
  let rm := if total_closed > 0 then
      { rm with win_rate := (winning.length : ℚ) / (total_closed : ℚ) }
    else rm
  if rm.peak_balance > 0 then
    let current_drawdown := (rm.peak_balance - rm.balance) / rm.peak_balance
    { rm with max_drawdown := max rm.max_drawdown current_drawdown }
  else rm

/-- `RiskManager.close_position` (`now` stands for `datetime.utcnow()`).  With no position,
only an error is logged and the state is returned unchanged.  (The Python line
`self.current_position.realized_pnl = pnl` mutates the position object immediately before it
is cleared, so the write is unobservable afterwards.) -/
def RiskManager.closePosition (rm : RiskManager) (now exit_price : ℚ) : RiskManager :=
  match rm.current_position with
  | none => rm
  | some pos =>
      let pnl := pos.size * (exit_price - pos.entry_price)
      let balance := rm.balance + pnl
      let peak_balance := if balance > rm.peak_balance then balance else rm.peak_balance
      let rm' := { rm with
        total_pnl := rm.total_pnl + pnl
        balance := balance
        available_balance := balance
        peak_balance := peak_balance
        last_trade_time := some now
        trade_history := rm.trade_history ++ [TradeRecord.closeTrade now exit_price pos.size pnl]
        current_position := none }
      rm'.updateMetrics

/-- `RiskManager.update_position`: returns the updated state together with the optional
exit signal. -/
def RiskManager.updatePosition (rm : RiskManager) (current_price : ℚ) :
    RiskManager × Option Signal :=
  match rm.current_position with
  | none => (rm, none)
  | some pos =>
      let pos' := { pos with
        unrealized_pnl := pos.size * (current_price - pos.entry_price) }
      let rm' := { rm with current_position := some pos' }
      if current_price ≤ pos.stop_loss then (rm', some .SELL)
      else if current_price ≥ pos.take_profit then (rm', some .SELL)
      else (rm', none)

/-- `RiskManager.set_balance`. -/
def RiskManager.setBalance (rm : RiskManager) (balance : ℚ) : RiskManager :=
  { rm with balance := balance, available_balance := balance, peak_balance := balance }

/-- One OHLCV candle (a row of the pandas DataFrame consumed by
`SignalProcessor.process`; `open` is spelled `open_price` because `open` is a Lean keyword). -/
structure Candle where
  timestamp : ℚ
  open_price : ℚ
  high : ℚ
  low : ℚ
  close : ℚ
  volume : ℚ
deriving DecidableEq, Repr

/-- The indicator dict built by `SignalProcessor._calculate_indicators`.  The field
`volume_factor` models the dict key holding current volume / trailing average volume
(`volume_ratio` in the source). -/
structure IndicatorSnapshot where
  rsi : ℚ
  bb_upper : ℚ
  bb_middle : ℚ
  bb_lower : ℚ
  bb_position : ℚ
  close : ℚ
  volume : ℚ
  volume_factor : ℚ
  avg_volume : ℚ
deriving DecidableEq, Repr

/-- One entry of `SignalProcessor.signal_history`
(a dict `{timestamp, signal, indicators}`). -/
structure SignalRecord where
  timestamp : ℚ
  signal : Signal
  indicators : IndicatorSnapshot
deriving DecidableEq, Repr

/-- Mutable state of `SignalProcessor` (`src/strategies/signal_processor.py`, `__init__`). -/
structure SignalProcessor where
  config : TradingConfig
  last_signal : Option Signal := none
  signal_history : List SignalRecord := []
deriving DecidableEq, Repr

/-- `SignalProcessor._should_filter_signal`: `signal_history[-5:]` keeps the last five
entries (all of them when fewer exist, which truncated `ℕ` subtraction gives for free);
`recent_signals[-1]` is the last element of the filtered list. -/
def SignalProcessor.shouldFilterSignal (sp : SignalProcessor) (signal : Signal) : Bool :=
  if sp.signal_history = [] ∨ signal = .HOLD then
    false
  else
    let recent_signals :=
      (sp.signal_history.drop (sp.signal_history.length - 5)).filter
        fun h => h.signal ≠ .HOLD
    match recent_signals.getLast? with
    | none => false
    | some h =>
        decide ((signal = .BUY ∧ h.signal = .SELL) ∨ (signal = .SELL ∧ h.signal = .BUY))

/-- `SignalProcessor._generate_signal`: the seven-case rule table, then the volume veto,
then the whipsaw filter. -/
def SignalProcessor.generateSignal (sp : SignalProcessor)
    (indicators : IndicatorSnapshot) : Signal :=
  let rsi := indicators.rsi
  let close := indicators.close
  let bb_upper := indicators.bb_upper
  let bb_lower := indicators.bb_lower
  let bb_position := indicators.bb_position
  let rsi_buy := rsi < sp.config.rsi_oversold
  let rsi_sell := rsi > sp.config.rsi_overbought
  let bb_buy := close ≤ bb_lower
  let bb_sell := close ≥ bb_upper
  let signal : Signal :=
    if rsi_buy ∧ bb_buy then .BUY
    else if rsi_buy ∧ bb_position < 3/10 then .BUY
    else if bb_buy ∧ rsi < 40 then .BUY
    else if rsi_sell ∧ bb_sell then .SELL
    else if rsi_sell ∧ bb_position > 7/10 then .SELL
    else if bb_sell ∧ rsi > 60 then .SELL
    else .HOLD
  let signal : Signal :=
    if signal ≠ .HOLD ∧ indicators.volume_factor < 1/2 then .HOLD else signal
  if sp.shouldFilterSignal signal then .HOLD else signal

/-- `SignalProcessor.process`.  The numeric indicator computation
(`_calculate_indicators`, which delegates to the external `ta`/`pandas` libraries) enters
the model as the oracle argument `calcIndicators`; the theorems below quantify over it.
The Python returns `(signal, {})` on the short-data path, modelled as `none`; the record
timestamp is `candles.index[-1]` (the length guard makes the list nonempty whenever a
window is positive, so the `getD` default is unreachable there). -/
def SignalProcessor.process (sp : SignalProcessor)
    (calcIndicators : List Candle → IndicatorSnapshot)
    (candles : List Candle) : SignalProcessor × Signal × Option IndicatorSnapshot :=
  if candles.length < max sp.config.rsi_period sp.config.bollinger_period then
    (sp, .HOLD, none)
  else
    let indicators := calcIndicators candles
    let signal := sp.generateSignal indicators
    let timestamp := ((candles.getLast?).map Candle.timestamp).getD 0
    let sp' := { sp with
      last_signal := some signal
      signal_history := sp.signal_history ++
        [{ timestamp := timestamp, signal := signal, indicators := indicators }] }
    (sp', signal, some indicators)

/-- `OrderStatus` enum from `src/execution/engine.py`. -/
inductive OrderStatus
  | PENDING
  | FILLED
  | CANCELLED
  | FAILED
deriving DecidableEq, Repr

/-- `Order` dataclass from `src/execution/engine.py` (clock values as `ℚ`). -/
structure Order where
  order_id : String
  side : String
  size : ℚ
  price : Option ℚ
  status : OrderStatus
  created_at : ℚ
  filled_at : Option ℚ := none
  filled_price : Option ℚ := none
  filled_size : Option ℚ := none
  error_message : Option String := none
deriving DecidableEq, Repr

/-- A terminal order status (anything but `PENDING`). -/
def OrderStatus.isTerminal : OrderStatus → Bool
  | .PENDING => false
  | _ => true

/-- One response of the gateway polling loop in `_wait_for_fill`:
`filled` (`status == "FILLED"`, with `average_filled_price` and `filled_size`),
`cancelledOrExpired` (`status in ["CANCELLED", "EXPIRED"]`, carrying the status text), or
`pendingOrError` (any other status, a malformed response, or an exception — the loop just
polls again). -/
inductive PollResult
  | filled (average_filled_price filled_size : ℚ)
  | cancelledOrExpired (statusText : String)
  | pendingOrError
deriving DecidableEq, Repr

/-- Outcome of `client.create_order` in `_execute_live_order`: a response with an
`order_id` attribute, a response without one (the method then falls through returning
`None` without touching the counters), or a raised exception. -/
inductive PlaceResult
  | ok (order_id : String)
  | noOrderId
  | raised
deriving DecidableEq, Repr

/-- Gateway oracle for one `execute_signal` call: the placement outcome, the successive
poll responses seen before the fill-wait timeout expires (the list running out models the
timeout), and whether the timeout-path `cancel_orders` call returns (`true`) or raises
(`false`). -/
structure LiveOracle where
  place : PlaceResult
  polls : List PollResult
  cancelSucceeds : Bool
deriving DecidableEq, Repr

/-- Mutable state of `ExecutionEngine` (`src/execution/engine.py`, `__init__`).
`orders` is the arena of every `Order` object ever created (Python object identity =
arena index); `pending_orders` maps order ids to arena indices and `order_history`
stores arena indices. -/
structure ExecutionEngine where
  config : TradingConfig
  risk_manager : RiskManager
  orders : List Order := []
  pending_orders : List (String × ℕ) := []
  order_history : List ℕ := []
  total_orders : ℕ := 0
  successful_orders : ℕ := 0
  failed_orders : ℕ := 0
deriving DecidableEq, Repr

/-- `self.pending_orders.get(order_id)` (as an arena index). -/
def ExecutionEngine.lookupPending (e : ExecutionEngine) (order_id : String) : Option ℕ :=
  (e.pending_orders.find? fun p => p.1 == order_id).map (·.2)

/-- `del self.pending_orders[order_id]` (also a no-op when the key is absent, which the
source never hits). -/
def ExecutionEngine.removePending (e : ExecutionEngine) (order_id : String) :
    ExecutionEngine :=
  { e with pending_orders := e.pending_orders.filter fun p => p.1 != order_id }

/-- `self.pending_orders[order_id] = order`.  Modelled as delete-then-append; a Python
dict overwrite would keep the key position instead, but the engine only ever inserts an
id that is not currently bound, and no modelled behaviour depends on iteration order. -/
def ExecutionEngine.insertPending (e : ExecutionEngine) (order_id : String) (idx : ℕ) :
    ExecutionEngine :=
  { e with pending_orders :=
      (e.pending_orders.filter fun p => p.1 != order_id) ++ [(order_id, idx)] }

/-- Read an order object from the arena. -/
def ExecutionEngine.getOrder? (e : ExecutionEngine) (idx : ℕ) : Option Order :=
  e.orders.get? idx

/-- In-place mutation of the order object at `idx` (no-op on a dangling index, which the
source never hits). -/
def ExecutionEngine.modifyOrder (e : ExecutionEngine) (idx : ℕ) (f : Order → Order) :
    ExecutionEngine :=
  match e.orders.get? idx with
  | some o => { e with orders := e.orders.set idx (f o) }
  | none => e

/-- The polling loop of `_wait_for_fill`, after the order was found in the pending map at
arena index `idx`.  Each `pendingOrError` poll is one non-terminal iteration; the polls
running out is the timeout, where `cancel_orders` is attempted: when it returns, the order
is marked `CANCELLED` / `"Order timeout"`, and when it raises, the bare `except: pass`
skips those two assignments; the `del` from the pending map runs in either case. -/
def ExecutionEngine.waitForFillGo (e : ExecutionEngine) (order_id : String) (idx : ℕ)
    (now : ℚ) (cancelSucceeds : Bool) :
    List PollResult → ExecutionEngine × Option ℕ
  | [] =>
      if cancelSucceeds then
        (((e.modifyOrder idx fun o =>
            { o with status := .CANCELLED, error_message := some "Order timeout" }
          ).removePending order_id), some idx)
      else
        (e.removePending order_id, some idx)
  | .filled avg fsz :: _ =>
      (((e.modifyOrder idx fun o =>
          { o with status := .FILLED, filled_at := some now,
                   filled_price := some avg, filled_size := some fsz }
        ).removePending order_id), some idx)
  | .cancelledOrExpired st :: _ =>
      (((e.modifyOrder idx fun o =>
          { o with status := .CANCELLED, error_message := some ("Order " ++ st) }
        ).removePending order_id), some idx)
  | .pendingOrError :: rest => e.waitForFillGo order_id idx now cancelSucceeds rest

/-- `ExecutionEngine._wait_for_fill`: returns the (possibly updated) engine together with
the arena index of the returned order (`none` models returning Python `None`, which
happens exactly when the id is not in the pending map, so that the `while` loop never runs
and the final `if order:` guard fails). -/
def ExecutionEngine.waitForFill (e : ExecutionEngine) (order_id : String)
    (polls : List PollResult) (cancelSucceeds : Bool) (now : ℚ) :
    ExecutionEngine × Option ℕ :=
  match e.lookupPending order_id with
  | none => (e, none)
  | some idx => e.waitForFillGo order_id idx now cancelSucceeds polls

/-- `ExecutionEngine._execute_test_order` (instant fill, never enters the pending map). -/
def ExecutionEngine.executeTestOrder (e : ExecutionEngine) (signal : Signal)
    (order_details : OrderDetails) (current_price now : ℚ) : ExecutionEngine × Option ℕ :=
  let order : Order := {
    order_id := "TEST-" ++ toString e.total_orders
    side := order_details.side
    size := order_details.size
    price := some current_price
    status := .FILLED
    created_at := now
    filled_at := some now
    filled_price := some current_price
    filled_size := some order_details.size }
  let idx := e.orders.length
  let e1 := { e with orders := e.orders ++ [order] }
  let rm :=
    if signal = .BUY then
      e1.risk_manager.openPosition now current_price order_details.size
        order_details.stopLoss order_details.takeProfit
    else
      e1.risk_manager.closePosition now current_price
  ({ e1 with
      risk_manager := rm
      total_orders := e1.total_orders + 1
      successful_orders := e1.successful_orders + 1
      order_history := e1.order_history ++ [idx] }, some idx)

/-- `ExecutionEngine._execute_paper_order` (recorded `PENDING`, then filled after the
simulated delay at ±0.1% slippage, then removed from the pending map). -/
def ExecutionEngine.executePaperOrder (e : ExecutionEngine) (signal : Signal)
    (order_details : OrderDetails) (current_price now : ℚ) : ExecutionEngine × Option ℕ :=
  let order : Order := {
    order_id := "PAPER-" ++ toString e.total_orders
    side := order_details.side
    size := order_details.size
    price := some current_price
    status := .PENDING
    created_at := now }
  let idx := e.orders.length
  let e1 := { e with orders := e.orders ++ [order] }
  let e2 := e1.insertPending order.order_id idx
  let fill_price := current_price * (1 + (if signal = .BUY then (1 : ℚ)/1000 else -(1/1000)))
  let e3 := e2.modifyOrder idx fun o =>
    { o with status := .FILLED, filled_at := some now,
             filled_price := some fill_price, filled_size := some order_details.size }
  let rm :=
    if signal = .BUY then
      e3.risk_manager.openPosition now fill_price order_details.size
        order_details.stopLoss order_details.takeProfit
    else
      e3.risk_manager.closePosition now fill_price
  let e4 := ({ e3 with risk_manager := rm }).removePending order.order_id
  ({ e4 with
      total_orders := e4.total_orders + 1
      successful_orders := e4.successful_orders + 1
      order_history := e4.order_history ++ [idx] }, some idx)

/-- `ExecutionEngine._execute_live_order`.  The gateway request dict (market/limit, the
±0.1% limit-price offset) is consumed by the out-of-scope gateway and does not touch
engine state; the placement outcome enters through the oracle.  On an exception the
failed-order counter is bumped and `None` is returned; on a response without an
`order_id` the method falls through returning `None` without touching any counter. -/
def ExecutionEngine.executeLiveOrder (e : ExecutionEngine) (signal : Signal)
    (order_details : OrderDetails) (current_price : ℚ) (oracle : LiveOracle) (now : ℚ) :
    ExecutionEngine × Option ℕ :=
  match oracle.place with
  | .raised => ({ e with failed_orders := e.failed_orders + 1 }, none)
  | .noOrderId => (e, none)
  | .ok order_id =>
      let order : Order := {
        order_id := order_id
        side := order_details.side
        size := order_details.size
        price := some current_price
        status := .PENDING
        created_at := now }
      let idx := e.orders.length
      let e1 := { e with orders := e.orders ++ [order] }
      let e2 := e1.insertPending order_id idx
      let r := e2.waitForFill order_id oracle.polls oracle.cancelSucceeds now
      match r.2 with
      | none => (r.1, none)
      | some fi =>
          match r.1.getOrder? fi with
          | none => (r.1, none)
          | some filled_order =>
              if filled_order.status = .FILLED then
                let rm :=
                  if signal = .BUY then
                    r.1.risk_manager.openPosition now (filled_order.filled_price.getD 0)
                      (filled_order.filled_size.getD 0) order_details.stopLoss
                      order_details.takeProfit
                  else
                    r.1.risk_manager.closePosition now (filled_order.filled_price.getD 0)
                ({ r.1 with
                    risk_manager := rm
                    successful_orders := r.1.successful_orders + 1
                    total_orders := r.1.total_orders + 1
                    order_history := r.1.order_history ++ [fi] }, some fi)
              else
                ({ r.1 with
                    failed_orders := r.1.failed_orders + 1
                    total_orders := r.1.total_orders + 1
                    order_history := r.1.order_history ++ [fi] }, some fi)

/-- `ExecutionEngine.execute_signal`: risk-manager admission, sizing, then dispatch on the
configured trading mode. -/
def ExecutionEngine.executeSignal (e : ExecutionEngine) (signal : Signal)
    (current_price signal_strength : ℚ) (oracle : LiveOracle) (now : ℚ) :
    ExecutionEngine × Option ℕ :=
  if (e.risk_manager.canTrade now signal current_price).1 = false then (e, none)
  else
    let order_details :=
      e.risk_manager.calculateOrderDetails signal current_price signal_strength
    if order_details = .empty then (e, none)
    else if e.config.trading_mode = "test" then
      e.executeTestOrder signal order_details current_price now
    else if e.config.trading_mode = "paper" then
      e.executePaperOrder signal order_details current_price now
    else
      e.executeLiveOrder signal order_details current_price oracle now

/-- The loop body of `check_pending_orders` over the snapshot
`list(self.pending_orders.keys())`. -/
def ExecutionEngine.checkPendingList (e : ExecutionEngine)
    (polls : String → List PollResult) (cancelOk : String → Bool) (now : ℚ) :
    List String → ExecutionEngine
  | [] => e
  | order_id :: rest =>
      ExecutionEngine.checkPendingList
        ((e.waitForFill order_id (polls order_id) (cancelOk order_id) now).1)
        polls cancelOk now rest

/-- `ExecutionEngine.check_pending_orders`: re-polls every currently pending order
(timeout 1, i.e. a short per-order poll budget drawn from the oracle). -/
def ExecutionEngine.checkPendingOrders (e : ExecutionEngine)
    (polls : String → List PollResult) (cancelOk : String → Bool) (now : ℚ) :
    ExecutionEngine :=
  e.checkPendingList polls cancelOk now (e.pending_orders.map (·.1))

/-- One externally triggered engine operation, with its oracle inputs. -/
inductive EngineEvent
  | executeSignalEvt (signal : Signal) (current_price signal_strength : ℚ)
      (oracle : LiveOracle) (now : ℚ)
  | waitForFillEvt (order_id : String) (polls : List PollResult) (cancelSucceeds : Bool)
      (now : ℚ)
  | checkPendingEvt (polls : String → List PollResult) (cancelOk : String → Bool) (now : ℚ)

/-- Run one engine operation (the state effect of the corresponding Python coroutine). -/
def ExecutionEngine.applyEvent (e : ExecutionEngine) : EngineEvent → ExecutionEngine
  | .executeSignalEvt signal price strength oracle now =>
      (e.executeSignal signal price strength oracle now).1
  | .waitForFillEvt order_id polls c now => (e.waitForFill order_id polls c now).1
  | .checkPendingEvt polls cancelOk now => e.checkPendingOrders polls cancelOk now

/-- A freshly constructed engine (`ExecutionEngine.__init__`). -/
def ExecutionEngine.init (config : TradingConfig) (risk_manager : RiskManager) :
    ExecutionEngine :=
  { config := config, risk_manager := risk_manager }

/-- Run a sequence of engine operations. -/
def runEvents (e : ExecutionEngine) (evts : List EngineEvent) : ExecutionEngine :=
  evts.foldl ExecutionEngine.applyEvent e

/-! ## Concrete fixtures (the default configuration of `src/config.py`,
with the trading mode varied) -/

/-- The default configuration of `load_config` with `TRADING_MODE=test`. -/
def testConfig : TradingConfig := {
  trading_mode := "test"
  trading_pair := "BTC-USD"
  order_type := "market"
  max_position_size := 1/10
  stop_loss_percentage := 2
  take_profit_percentage := 5
  min_order_size := 10
  cooldown_period := 300
  rsi_period := 14
  rsi_oversold := 30
  rsi_overbought := 70
  bollinger_period := 20
  bollinger_std := 2 }

/-- The same configuration with `TRADING_MODE=paper`. -/
def paperConfig : TradingConfig := { testConfig with trading_mode := "paper" }

/-- The Scenario-D position: entry 50000, size 0.002, stop 49000, take-profit 52500. -/
def samplePosition : Position := {
  entry_price := 50000
  size := 1/500
  entry_time := 0
  status := .OPEN
  stop_loss := 49000
  take_profit := 52500 }

/-- One open/close round trip, as fed to `runCycles`. -/
structure Cycle where
  open_time : ℚ
  entry : ℚ
  size : ℚ
  stop_loss : ℚ
  take_profit : ℚ
  close_time : ℚ
  exit_price : ℚ
deriving DecidableEq, Repr

/-- Repeated `open_position`/`close_position` cycles. -/
def runCycles (rm : RiskManager) : List Cycle → RiskManager
  | [] => rm
  | c :: cs =>
      runCycles
        ((rm.openPosition c.open_time c.entry c.size c.stop_loss c.take_profit).closePosition
          c.close_time c.exit_price) cs

/-- `_update_metrics` recomputes only `win_rate` and `max_drawdown`. -/
theorem RiskManager.updateMetrics_preserves (rm : RiskManager) :
    rm.updateMetrics.config = rm.config ∧
    rm.updateMetrics.balance = rm.balance ∧
    rm.updateMetrics.available_balance = rm.available_balance ∧
    rm.updateMetrics.current_position = rm.current_position ∧
    rm.updateMetrics.trade_history = rm.trade_history ∧
    rm.updateMetrics.last_trade_time = rm.last_trade_time ∧
    rm.updateMetrics.total_pnl = rm.total_pnl ∧
    rm.updateMetrics.peak_balance = rm.peak_balance := by
  unfold RiskManager.updateMetrics
  dsimp only
  split_ifs <;> simp_all

/-- The observable effect of `close_position` directly after `open_position`. -/
theorem closePosition_after_open (rm : RiskManager)
    (t1 t2 entry size stop_loss take_profit exit_price : ℚ) :
    ((rm.openPosition t1 entry size stop_loss take_profit).closePosition t2
        exit_price).total_pnl = rm.total_pnl + size * (exit_price - entry) ∧
    ((rm.openPosition t1 entry size stop_loss take_profit).closePosition t2
        exit_price).balance = rm.balance + size * (exit_price - entry) ∧
    ((rm.openPosition t1 entry size stop_loss take_profit).closePosition t2
        exit_price).trade_history.getLast? =
      some (.closeTrade t2 exit_price size (size * (exit_price - entry))) := by
  have h := RiskManager.updateMetrics_preserves
  unfold RiskManager.closePosition RiskManager.openPosition
  refine ⟨?_, ?_, ?_⟩ <;>
    simp [(h _).2.1, (h _).2.2.1, (h _).2.2.2.1, (h _).2.2.2.2.1, (h _).2.2.2.2.2.2.1]

/-! ## Claims about the Risk Manager -/

/-- C1, counterexample: the claim asserts that `can_trade(BUY, ·)` is rejected whenever a
Position is open *in every trading mode, including the pure-simulation (test) mode*.  In
test mode (`trading_mode` not in `["paper", "live"]`) the very first admission rule
returns `allowed = true` unconditionally, even with an open Position. -/
theorem c1_counterexample_test_mode_allows :
    (RiskManager.canTrade
      { config := testConfig, current_position := some samplePosition } 0 .BUY 50000).1
      = true := by
  decide

/-- C1 (amended): in the trading-enabled modes (`"paper"` and `"live"`), `can_trade`
returns `allowed = false` for BUY whenever a Position is open and for SELL whenever none
is open, for every state, clock value and price; in every other (trading-disabled / test)
mode `can_trade` always returns `allowed = true`. -/
theorem c1_admission (rm : RiskManager) (now price : ℚ) :
    (rm.config.trading_mode = "paper" ∨ rm.config.trading_mode = "live" →
      (rm.current_position.isSome = true → (rm.canTrade now .BUY price).1 = false) ∧
      (rm.current_position.isNone = true → (rm.canTrade now .SELL price).1 = false)) ∧
    (rm.config.trading_mode ≠ "paper" ∧ rm.config.trading_mode ≠ "live" →
      ∀ signal : Signal, (rm.canTrade now signal price).1 = true) := by
  constructor
  · intro hmode
    have h1 : ¬(rm.config.trading_mode ≠ "paper" ∧ rm.config.trading_mode ≠ "live") := by
      rcases hmode with h | h <;> simp [h]
    constructor
    · intro hpos
      unfold RiskManager.canTrade
      rw [if_neg h1]
      by_cases hc : rm.checkCooldown now = false
      · rw [if_pos hc]
      · rw [if_neg hc, if_pos ⟨rfl, hpos⟩]
    · intro hnone
      unfold RiskManager.canTrade
      rw [if_neg h1]
      by_cases hc : rm.checkCooldown now = false
      · rw [if_pos hc]
      · rw [if_neg hc, if_neg (by simp), if_pos ⟨rfl, hnone⟩]
  · intro hmode signal
    unfold RiskManager.canTrade
    rw [if_pos hmode]

/-- C1 witness: in paper mode, a BUY with an open Position and a SELL with none are both
rejected; in test mode a BUY with an open Position is allowed. -/
theorem c1_admission_witness :
    ((RiskManager.canTrade
      { config := paperConfig, current_position := some samplePosition } 0 .BUY 50000).1
        = false) ∧
    ((RiskManager.canTrade
      { config := paperConfig, current_position := none } 0 .SELL 50000).1 = false) ∧
    ((RiskManager.canTrade
      { config := testConfig, current_position := some samplePosition } 0 .BUY 50000).1
        = true) :=
  ⟨((c1_admission { config := paperConfig, current_position := some samplePosition }
      0 50000).1 (Or.inl rfl)).1 rfl,
   ((c1_admission { config := paperConfig, current_position := none }
      0 50000).1 (Or.inl rfl)).2 rfl,
   (c1_admission { config := testConfig, current_position := some samplePosition }
      0 50000).2 (by decide) .BUY⟩

/-- C3: a `close_position(exit)` directly after `open_position(entry, size, ...)` realizes
PnL `size·(exit − entry)` (recorded in the appended close trade record), adds exactly that
amount to the cumulative total PnL and to the balance; across repeated open/close cycles
the cumulative PnL is the sum of the per-cycle terms; with entry 50000, size 0.002 and
exit 49000 the realized PnL is −2. -/
theorem c3_pnl_roundtrip :
    (∀ (rm : RiskManager) (t1 t2 entry size stop_loss take_profit exit_price : ℚ),
      ((rm.openPosition t1 entry size stop_loss take_profit).closePosition t2
          exit_price).total_pnl = rm.total_pnl + size * (exit_price - entry) ∧
      ((rm.openPosition t1 entry size stop_loss take_profit).closePosition t2
          exit_price).balance = rm.balance + size * (exit_price - entry) ∧
      ((rm.openPosition t1 entry size stop_loss take_profit).closePosition t2
          exit_price).trade_history.getLast? =
        some (.closeTrade t2 exit_price size (size * (exit_price - entry)))) ∧
    (∀ (rm : RiskManager) (cs : List Cycle),
      (runCycles rm cs).total_pnl =
        rm.total_pnl + (cs.map fun c => c.size * (c.exit_price - c.entry)).sum) ∧
    ((RiskManager.closePosition
        (RiskManager.openPosition { config := testConfig } 0 50000 (1/500) 49000 52500)
        1 49000).total_pnl = -2) := by
  have hcum : ∀ (cs : List Cycle) (rm : RiskManager),
      (runCycles rm cs).total_pnl =
        rm.total_pnl + (cs.map fun c => c.size * (c.exit_price - c.entry)).sum := by
    intro cs
    induction cs with
    | nil => intro rm; simp [runCycles]
    | cons c cs ih =>
        intro rm
        rw [runCycles, ih, (closePosition_after_open rm _ _ _ _ _ _ _).1]
        simp [add_assoc]
  refine ⟨fun rm t1 t2 en sz sl tp ex => closePosition_after_open rm t1 t2 en sz sl tp ex,
    fun rm cs => hcum cs rm, ?_⟩
  rw [(closePosition_after_open { config := testConfig } 0 1 50000 (1/500) 49000 52500
      49000).1]
  norm_num

/-- C4, counterexample: the claim's formula `size = (available balance ×
max-position-fraction) × strength` omits the division by the current price.  With balance
10000, fraction 0.1, price 50000 and strength 1 the code returns size 0.02 (its own
scenario figure), which differs from the claimed `10000 × 0.1 × 1 = 1000`. -/
theorem c4_counterexample_size_formula :
    (RiskManager.calculateOrderDetails
      { config := testConfig, available_balance := 10000 } .BUY 50000 1).size = 1/50 ∧
    ((1 : ℚ)/50) ≠ (10000 * (1/10)) * 1 := by
  constructor
  · norm_num [RiskManager.calculateOrderDetails, RiskManager.calculatePositionSize,
      OrderDetails.size, testConfig]
  · norm_num

/-- C4 (amended): for BUY, `calculate_order_details` returns size = (available balance ×
max-position-fraction ÷ price) × strength, value = size × price, stop_loss = price × (1 −
stop-loss-pct/100), take_profit = price × (1 + take-profit-pct/100), risk amount =
size × (price − stop_loss) and potential profit = size × (take_profit − price); with
balance 10000, fraction 0.1, price 50000, strength 1 this gives size 0.02 and value
1000. -/
theorem c4_order_details (rm : RiskManager) (price strength : ℚ) :
    (rm.calculateOrderDetails .BUY price strength =
      .buyDetails
        (rm.available_balance * rm.config.max_position_size / price * strength)
        (rm.available_balance * rm.config.max_position_size / price * strength * price)
        (price * (1 - rm.config.stop_loss_percentage / 100))
        (price * (1 + rm.config.take_profit_percentage / 100))
        (rm.available_balance * rm.config.max_position_size / price * strength *
          (price - price * (1 - rm.config.stop_loss_percentage / 100)))
        (rm.available_balance * rm.config.max_position_size / price * strength *
          (price * (1 + rm.config.take_profit_percentage / 100) - price))) ∧
    ((RiskManager.calculateOrderDetails
        { config := testConfig, available_balance := 10000 } .BUY 50000 1).size = 1/50 ∧
      (RiskManager.calculateOrderDetails
        { config := testConfig, available_balance := 10000 } .BUY 50000 1).value
        = 1000) := by
  refine ⟨rfl, ?_, ?_⟩ <;>
    norm_num [RiskManager.calculateOrderDetails, RiskManager.calculatePositionSize,
      OrderDetails.size, OrderDetails.value, testConfig]

/-- C5: with an open Position, `update_position(price)` returns SELL when price ≤
stop_loss or price ≥ take_profit (the stop-loss branch is checked first, and both
branches return SELL, so SELL results whenever either threshold is crossed), returns
None for any price strictly between the two thresholds, and returns None whenever no
Position exists. -/
theorem c5_update_position_triggers :
    (∀ (rm : RiskManager) (pos : Position) (price : ℚ),
      rm.current_position = some pos →
      ((price ≤ pos.stop_loss ∨ price ≥ pos.take_profit →
          (rm.updatePosition price).2 = some .SELL) ∧
        (pos.stop_loss < price → price < pos.take_profit →
          (rm.updatePosition price).2 = none))) ∧
    (∀ (rm : RiskManager) (price : ℚ),
      rm.current_position = none → (rm.updatePosition price).2 = none) := by
  constructor
  · intro rm pos price h
    unfold RiskManager.updatePosition
    rw [h]
    constructor
    · intro htrig
      dsimp only
      split_ifs with h1 h2
      · rfl
      · rfl
      · rcases htrig with ht | ht
        · exact absurd ht h1
        · exact absurd ht h2
    · intro hlo hhi
      dsimp only
      split_ifs with h1 h2
      · exact absurd h1 (not_le.mpr hlo)
      · exact absurd h2 (not_le.mpr hhi)
      · rfl
  · intro rm price h
    unfold RiskManager.updatePosition
    rw [h]

/-- C5 witness: for the Scenario-D position (stop 49000, take-profit 52500),
`update_position` returns SELL at 49000 and at 52500, and None at 50000. -/
theorem c5_update_position_witness :
    ((RiskManager.updatePosition
      { config := testConfig, current_position := some samplePosition } 49000).2
        = some .SELL) ∧
    ((RiskManager.updatePosition
      { config := testConfig, current_position := some samplePosition } 52500).2
        = some .SELL) ∧
    ((RiskManager.updatePosition
      { config := testConfig, current_position := some samplePosition } 50000).2
        = none) :=
  ⟨(c5_update_position_triggers.1 _ samplePosition 49000 rfl).1
      (Or.inl (by norm_num [samplePosition])),
   (c5_update_position_triggers.1 _ samplePosition 52500 rfl).1
      (Or.inr (by norm_num [samplePosition])),
   (c5_update_position_triggers.1 _ samplePosition 50000 rfl).2
      (by norm_num [samplePosition]) (by norm_num [samplePosition])⟩

/-- C6: with no open Position, `close_position` is a total no-op: the entire Risk Manager
state (balance, available balance, total PnL, trade history, last-trade time and all
metrics) is returned unchanged, for every exit price and clock value. -/
theorem c6_close_without_position_noop (rm : RiskManager) (now exit_price : ℚ)
    (h : rm.current_position = none) :
    rm.closePosition now exit_price = rm := by
  unfold RiskManager.closePosition
  rw [h]

/-- C6 witness: closing on a fresh Risk Manager (no Position) leaves the state intact. -/
theorem c6_close_without_position_witness :
    RiskManager.closePosition { config := testConfig } 3 100 = { config := testConfig } :=
  c6_close_without_position_noop { config := testConfig } 3 100 rfl

/-- C10: `update_position(price)` only rewrites the open Position's `unrealized_pnl`
(to `size·(price − entry)`): every other Risk Manager field — balance, available balance,
trade history, cooldown timestamp, total PnL, metrics — and every other Position field is
unchanged, the Position is never cleared, and with no Position the state is returned
untouched. -/
theorem c10_update_position_frame (rm : RiskManager) (price : ℚ) :
    (rm.updatePosition price).1.config = rm.config ∧
    (rm.updatePosition price).1.balance = rm.balance ∧
    (rm.updatePosition price).1.available_balance = rm.available_balance ∧
    (rm.updatePosition price).1.trade_history = rm.trade_history ∧
    (rm.updatePosition price).1.last_trade_time = rm.last_trade_time ∧
    (rm.updatePosition price).1.total_pnl = rm.total_pnl ∧
    (rm.updatePosition price).1.win_rate = rm.win_rate ∧
    (rm.updatePosition price).1.max_drawdown = rm.max_drawdown ∧
    (rm.updatePosition price).1.peak_balance = rm.peak_balance ∧
    (match rm.current_position with
      | none => (rm.updatePosition price).1 = rm
      | some pos => (rm.updatePosition price).1.current_position =
          some { pos with unrealized_pnl := pos.size * (price - pos.entry_price) }) := by
  unfold RiskManager.updatePosition
  cases h : rm.current_position with
  | none => simp
  | some pos => dsimp only; split_ifs <;> simp

/-! ## Claims about the Signal Processor -/

/-- A neutral indicator snapshot (used as the oracle value where the numeric indicator
content is irrelevant). -/
def flatSnapshot : IndicatorSnapshot := {
  rsi := 50
  bb_upper := 51000
  bb_middle := 50000
  bb_lower := 49000
  bb_position := 1/2
  close := 50000
  volume := 100
  volume_factor := 1
  avg_volume := 100 }

/-- Scenario A of the spec: RSI 25, close 49000 equal to the lower band, volume ratio
1.5. -/
def scenarioASnapshot : IndicatorSnapshot := {
  rsi := 25
  bb_upper := 51000
  bb_middle := 50000
  bb_lower := 49000
  bb_position := 0
  close := 49000
  volume := 150
  volume_factor := 3/2
  avg_volume := 100 }

/-- Scenario B of the spec: identical to Scenario A but volume ratio 0.3. -/
def scenarioBSnapshot : IndicatorSnapshot :=
  { scenarioASnapshot with volume := 30, volume_factor := 3/10 }

/-- C8, counterexample: with fewer candles than max(RSI window, Bollinger window),
`process` returns early with `(HOLD, {})` *without* appending a Signal record — so not
every call appends one.  (Default windows 14/20, empty candle list.) -/
theorem c8_counterexample_short_data_no_append :
    (SignalProcessor.process { config := testConfig } (fun _ => flatSnapshot)
        []).1.signal_history = [] ∧
    (SignalProcessor.process { config := testConfig } (fun _ => flatSnapshot) []).2
      = (.HOLD, none) := by
  constructor <;> decide

/-- C8 (amended): when the candle count reaches max(RSI window, Bollinger window),
every `process` call appends exactly one Signal record (holding the last candle's
timestamp, the emitted signal and the computed snapshot) to the signal history; on the
short-data path `process` returns HOLD with an empty snapshot and appends nothing.
Quantified over every indicator-computation oracle. -/
theorem c8_process_history (sp : SignalProcessor)
    (calcIndicators : List Candle → IndicatorSnapshot) (candles : List Candle) :
    (candles.length < max sp.config.rsi_period sp.config.bollinger_period →
      (sp.process calcIndicators candles).1.signal_history = sp.signal_history ∧
      (sp.process calcIndicators candles).2 = (.HOLD, none)) ∧
    (¬ candles.length < max sp.config.rsi_period sp.config.bollinger_period →
      (sp.process calcIndicators candles).1.signal_history =
        sp.signal_history ++
          [{ timestamp := ((candles.getLast?).map Candle.timestamp).getD 0
             signal := sp.generateSignal (calcIndicators candles)
             indicators := calcIndicators candles }]) := by
  unfold SignalProcessor.process
  constructor
  · intro h
    rw [if_pos h]
    exact ⟨rfl, rfl⟩
  · intro h
    rw [if_neg h]

/-- C8 witness: on the default configuration and an empty candle list the short-data
branch applies and the history stays empty. -/
theorem c8_process_history_witness :
    (SignalProcessor.process { config := testConfig } (fun _ => flatSnapshot)
        []).1.signal_history = ({ config := testConfig } : SignalProcessor).signal_history ∧
    (SignalProcessor.process { config := testConfig } (fun _ => flatSnapshot) []).2
      = (.HOLD, none) :=
  (c8_process_history { config := testConfig } (fun _ => flatSnapshot) []).1 (by decide)

/-- C9: any non-HOLD signal from the rule table is downgraded to HOLD when the volume
ratio is below 0.5 (for every state, configuration and snapshot); concretely, on the
default thresholds with empty history, Scenario A (RSI 25, close at the lower band,
volume ratio 1.5) yields BUY while Scenario B (volume ratio 0.3) yields HOLD. -/
theorem c9_volume_veto :
    (∀ (sp : SignalProcessor) (indicators : IndicatorSnapshot),
      indicators.volume_factor < 1/2 → sp.generateSignal indicators = .HOLD) ∧
    SignalProcessor.generateSignal { config := testConfig } scenarioASnapshot = .BUY ∧
    SignalProcessor.generateSignal { config := testConfig } scenarioBSnapshot = .HOLD := by
  refine ⟨?_, ?_, ?_⟩
  · intro sp indicators hv
    unfold SignalProcessor.generateSignal
    dsimp only
    split_ifs with h1 h2 h3 h4 <;> simp_all [SignalProcessor.shouldFilterSignal]
  · norm_num [SignalProcessor.generateSignal, SignalProcessor.shouldFilterSignal,
      scenarioASnapshot, testConfig]
  · norm_num [SignalProcessor.generateSignal, SignalProcessor.shouldFilterSignal,
      scenarioASnapshot, scenarioBSnapshot, testConfig]

/-- C9 witness: the universal volume-veto part applied to Scenario B's snapshot. -/
theorem c9_volume_veto_witness :
    SignalProcessor.generateSignal { config := testConfig } scenarioBSnapshot = .HOLD :=
  c9_volume_veto.1 { config := testConfig } scenarioBSnapshot
    (by norm_num [scenarioBSnapshot, scenarioASnapshot])

/-! ## Claims about the Execution Engine -/

/-- Allowed evolution of the order arena across one engine operation: every order object
existing beforehand is either left untouched or moves from `PENDING` to a terminal
status. -/
def OrdersOk (l l' : List Order) : Prop :=
  ∀ i o, l.get? i = some o → ∃ o', l'.get? i = some o' ∧
    (o' = o ∨ (o.status = .PENDING ∧ o'.status.isTerminal = true))

theorem ordersOk_refl (l : List Order) : OrdersOk l l :=
  fun _ o h => ⟨o, h, Or.inl rfl⟩

theorem ordersOk_trans {l1 l2 l3 : List Order} (h12 : OrdersOk l1 l2)
    (h23 : OrdersOk l2 l3) : OrdersOk l1 l3 := by
  intro i o h
  obtain ⟨o2, hg2, hc2⟩ := h12 i o h
  obtain ⟨o3, hg3, hc3⟩ := h23 i o2 hg2
  refine ⟨o3, hg3, ?_⟩
  rcases hc2 with rfl | ⟨hp2, ht2⟩
  · exact hc3
  · rcases hc3 with rfl | ⟨hp3, ht3⟩
    · exact Or.inr ⟨hp2, ht2⟩
    · exact Or.inr ⟨hp2, ht3⟩

theorem ordersOk_append (l : List Order) (o : Order) : OrdersOk l (l ++ [o]) := by
  intro i oo h
  have hlt : i < l.length := (List.get?_eq_some.mp h).fst
  exact ⟨oo, by rw [List.get?_append hlt]; exact h, Or.inl rfl⟩

theorem ordersOk_set_terminal (l : List Order) (idx : ℕ) (o o' : Order)
    (hg : l.get? idx = some o) (hp : o.status = .PENDING)
    (ht : o'.status.isTerminal = true) : OrdersOk l (l.set idx o') := by
  intro i oo h
  by_cases hi : i = idx
  · subst hi
    have hoo : oo = o := Option.some.inj (h.symm.trans hg)
    subst hoo
    exact ⟨o', List.get?_set_eq_of_lt o' (List.get?_eq_some.mp h).fst,
      Or.inr ⟨hp, ht⟩⟩
  · exact ⟨oo, by rw [List.get?_set_ne _ _ (fun hh => hi hh.symm)]; exact h, Or.inl rfl⟩

/-- Engine invariant: every pending-map entry points (through the arena) to a `PENDING`
order, and no two pending entries alias the same order object. -/
def ExecutionEngine.Inv (e : ExecutionEngine) : Prop :=
  (∀ p ∈ e.pending_orders, ∃ o, e.orders.get? p.2 = some o ∧ o.status = .PENDING) ∧
  (e.pending_orders.map Prod.snd).Nodup

/-- One engine operation is well-behaved: assuming the invariant, the arena evolves
one-way and the invariant is re-established. -/
def GoodOp (e e' : ExecutionEngine) : Prop :=
  e.Inv → OrdersOk e.orders e'.orders ∧ e'.Inv

theorem goodOp_refl (e : ExecutionEngine) : GoodOp e e :=
  fun h => ⟨ordersOk_refl _, h⟩

theorem goodOp_trans {a b c : ExecutionEngine} (h1 : GoodOp a b) (h2 : GoodOp b c) :
    GoodOp a c := fun h =>
  have ⟨o1, i1⟩ := h1 h
  have ⟨o2, i2⟩ := h2 i1
  ⟨ordersOk_trans o1 o2, i2⟩

/-- Operations that touch neither the arena nor the pending map are well-behaved. -/
theorem goodOp_of_eq {a b : ExecutionEngine} (ho : b.orders = a.orders)
    (hp : b.pending_orders = a.pending_orders) : GoodOp a b := by
  intro h
  constructor
  · rw [ho]; exact ordersOk_refl _
  · unfold ExecutionEngine.Inv at h ⊢
    rw [ho, hp]
    exact h

/-- Shrinking the pending map to a subset (while every surviving entry still reaches its
order object unchanged) re-establishes the invariant. -/
theorem inv_pending_sub (e : ExecutionEngine) (l' : List Order)
    (pend' : List (String × ℕ))
    (hsub : ∀ p ∈ pend', p ∈ e.pending_orders)
    (hnd : (pend'.map Prod.snd).Nodup)
    (hpres : ∀ p ∈ pend', ∀ o, e.orders.get? p.2 = some o → l'.get? p.2 = some o)
    (h : e.Inv) :
    ExecutionEngine.Inv { e with orders := l', pending_orders := pend' } := by
  obtain ⟨h1, _⟩ := h
  refine ⟨?_, hnd⟩
  intro p hp
  obtain ⟨o, hg, hs⟩ := h1 p (hsub p hp)
  exact ⟨o, hpres p hp o hg, hs⟩

theorem goodOp_removePending (e : ExecutionEngine) (id : String) :
    GoodOp e (e.removePending id) := by
  intro hInv
  refine ⟨ordersOk_refl _, ?_⟩
  unfold ExecutionEngine.removePending
  exact inv_pending_sub e e.orders _ (fun p hp => (List.mem_filter.mp hp).1)
    (((e.pending_orders.filter_sublist).map Prod.snd).nodup hInv.2)
    (fun _ _ _ hg => hg) hInv

/-- Marking the pending order found at `idx` terminal and dropping it from the pending
map is a well-behaved operation (the shape of every terminal branch of the fill-wait
loop). -/
theorem goodOp_resolve (e : ExecutionEngine) (id : String) (idx : ℕ) (f : Order → Order)
    (hlook : e.lookupPending id = some idx)
    (hterm : ∀ o, ((f o).status).isTerminal = true) :
    GoodOp e ((e.modifyOrder idx f).removePending id) := by
  intro hInv
  obtain ⟨hInv1, hInv2⟩ := hInv
  obtain ⟨pr, hfind, hsnd⟩ := Option.map_eq_some'.mp hlook
  have hprmem : pr ∈ e.pending_orders := List.mem_of_find?_eq_some hfind
  have hbeq := List.find?_some hfind
  have hprid : pr.1 = id := eq_of_beq hbeq
  obtain ⟨o, hg, hs⟩ := hInv1 pr hprmem
  rw [hsnd] at hg
  have hmod : e.modifyOrder idx f = { e with orders := e.orders.set idx (f o) } := by
    unfold ExecutionEngine.modifyOrder
    rw [hg]
  rw [hmod]
  have hne : ∀ p ∈ e.pending_orders.filter (fun p => p.1 != id), idx ≠ p.2 := by
    intro p hp
    obtain ⟨hpmem, hpbne⟩ := List.mem_filter.mp hp
    intro hcontra
    have hps : p.2 = pr.2 := by rw [← hcontra, hsnd]
    have : p = pr := List.inj_on_of_nodup_map hInv2 hpmem hprmem hps
    rw [this, hprid] at hpbne
    simp at hpbne
  constructor
  · exact ordersOk_set_terminal _ _ _ _ hg hs (hterm o)
  · unfold ExecutionEngine.removePending
    exact inv_pending_sub e _ _ (fun p hp => (List.mem_filter.mp hp).1)
      (((e.pending_orders.filter_sublist).map Prod.snd).nodup hInv2)
      (fun p hp oo hgo => by rw [List.get?_set_ne _ _ (hne p hp)]; exact hgo)
      ⟨hInv1, hInv2⟩

/-- The fill-wait polling loop is well-behaved for any id found in the pending map. -/
theorem goodOp_waitForFillGo (e : ExecutionEngine) (id : String) (idx : ℕ) (now : ℚ)
    (c : Bool) (polls : List PollResult) (hlook : e.lookupPending id = some idx) :
    GoodOp e (e.waitForFillGo id idx now c polls).1 := by
  induction polls with
  | nil =>
      cases c
      · exact goodOp_removePending e id
      · exact goodOp_resolve e id idx _ hlook (fun _ => rfl)
  | cons head rest ih =>
      cases head with
      | filled avg fsz => exact goodOp_resolve e id idx _ hlook (fun _ => rfl)
      | cancelledOrExpired st => exact goodOp_resolve e id idx _ hlook (fun _ => rfl)
      | pendingOrError => exact ih

/-- `_wait_for_fill` is well-behaved. -/
theorem goodOp_waitForFill (e : ExecutionEngine) (id : String) (polls : List PollResult)
    (c : Bool) (now : ℚ) : GoodOp e (e.waitForFill id polls c now).1 := by
  unfold ExecutionEngine.waitForFill
  cases hlook : e.lookupPending id with
  | none => exact goodOp_refl e
  | some idx => exact goodOp_waitForFillGo e id idx now c polls hlook

/-- The reconciliation loop of `check_pending_orders` is well-behaved. -/
theorem goodOp_checkPendingList (polls : String → List PollResult)
    (cancelOk : String → Bool) (now : ℚ) (keys : List String) :
    ∀ e : ExecutionEngine, GoodOp e (e.checkPendingList polls cancelOk now keys) := by
  induction keys with
  | nil => intro e; exact goodOp_refl e
  | cons k ks ih =>
      intro e
      unfold ExecutionEngine.checkPendingList
      exact goodOp_trans (goodOp_waitForFill e k (polls k) (cancelOk k) now) (ih _)

/-- Being well-behaved only depends on the arena and the pending map. -/
theorem goodOp_of_projections {e : ExecutionEngine} (Y : ExecutionEngine)
    {X : ExecutionEngine} (ho : X.orders = Y.orders)
    (hp : X.pending_orders = Y.pending_orders) (h : GoodOp e Y) : GoodOp e X := by
  intro hInv
  obtain ⟨h1, h2⟩ := h hInv
  constructor
  · rw [ho]; exact h1
  · unfold ExecutionEngine.Inv at h2 ⊢
    rw [ho, hp]
    exact h2

/-- Creating a fresh order object (appending to the arena) is well-behaved. -/
theorem goodOp_appendOrder (e : ExecutionEngine) (o : Order) :
    GoodOp e { e with orders := e.orders ++ [o] } := by
  intro hInv
  refine ⟨ordersOk_append _ _, ?_⟩
  obtain ⟨h1, h2⟩ := hInv
  refine ⟨?_, h2⟩
  intro p hp
  obtain ⟨oo, hg, hs⟩ := h1 p hp
  have hlt : p.2 < e.orders.length := (List.get?_eq_some.mp hg).fst
  exact ⟨oo, by rw [List.get?_append hlt]; exact hg, hs⟩

/-- Binding a fresh id to a `PENDING` order object not currently aliased by the pending
map is well-behaved. -/
theorem goodOp_insertPending (e : ExecutionEngine) (id : String) (idx : ℕ) (o : Order)
    (hg : e.orders.get? idx = some o) (hp : o.status = .PENDING)
    (hfresh : ∀ p ∈ e.pending_orders, p.2 ≠ idx) :
    GoodOp e (e.insertPending id idx) := by
  intro hInv
  refine ⟨ordersOk_refl _, ?_⟩
  obtain ⟨h1, h2⟩ := hInv
  constructor
  · intro p hpmem
    rcases List.mem_append.mp hpmem with hmem | hmem
    · exact h1 p (List.mem_filter.mp hmem).1
    · rw [List.mem_singleton.mp hmem]
      exact ⟨o, hg, hp⟩
  · show ((e.pending_orders.filter _ ++ [(id, idx)]).map Prod.snd).Nodup
    rw [List.map_append]
    refine List.Nodup.append
      (((e.pending_orders.filter_sublist).map Prod.snd).nodup h2)
      (List.nodup_singleton idx) ?_
    intro a ha hb
    rw [List.map_singleton, List.mem_singleton] at hb
    subst hb
    obtain ⟨p, hpmem, hpsnd⟩ := List.mem_map.mp ha
    exact hfresh p (List.mem_filter.mp hpmem).1 hpsnd

/-- After an insert, looking the id up finds exactly the inserted index. -/
theorem lookupPending_insert (e : ExecutionEngine) (id : String) (idx : ℕ) :
    (e.insertPending id idx).lookupPending id = some idx := by
  unfold ExecutionEngine.insertPending ExecutionEngine.lookupPending
  dsimp only
  rw [List.find?_append]
  have hnone : (e.pending_orders.filter fun p => p.1 != id).find?
      (fun p => p.1 == id) = none := by
    rw [List.find?_eq_none]
    intro p hpmem
    have := (List.mem_filter.mp hpmem).2
    simp only [bne_iff_ne, ne_eq] at this
    simp [this]
  rw [hnone]
  simp

/-- `_execute_test_order` is well-behaved (it only appends an order object). -/
theorem goodOp_executeTestOrder (e : ExecutionEngine) (signal : Signal)
    (od : OrderDetails) (price now : ℚ) :
    GoodOp e (e.executeTestOrder signal od price now).1 :=
  goodOp_of_projections
    { e with orders := e.orders ++ [{
        order_id := "TEST-" ++ toString e.total_orders
        side := od.side
        size := od.size
        price := some price
        status := .FILLED
        created_at := now
        filled_at := some now
        filled_price := some price
        filled_size := some od.size }] }
    rfl rfl (goodOp_appendOrder e _)

/-- Entries of the pending map point strictly below the current arena size, so a freshly
appended index is unaliased. -/
theorem pending_fresh (e : ExecutionEngine) (hInv : e.Inv) :
    ∀ p ∈ e.pending_orders, p.2 ≠ e.orders.length := by
  intro p hpmem hcontra
  obtain ⟨oo, hgg, _⟩ := hInv.1 p hpmem
  have hlt := (List.get?_eq_some.mp hgg).fst
  omega

/-- Composite shape of `_execute_paper_order`: create a `PENDING` order, bind it in the
pending map, mark it terminal in place, unbind it.  Well-behaved. -/
theorem goodOp_place_and_resolve (e : ExecutionEngine) (o : Order) (id : String)
    (f : Order → Order) (hp : o.status = .PENDING)
    (hterm : ∀ oo, ((f oo).status).isTerminal = true) :
    GoodOp e
      (((({ e with orders := e.orders ++ [o] }).insertPending id
        e.orders.length).modifyOrder e.orders.length f).removePending id) := by
  intro hInv
  have g1 := goodOp_appendOrder e o hInv
  have g2 := goodOp_insertPending { e with orders := e.orders ++ [o] } id
    e.orders.length o (List.get?_concat_length e.orders o) hp
    (pending_fresh e hInv) g1.2
  have g3 := goodOp_resolve _ id e.orders.length f
    (lookupPending_insert _ id e.orders.length) hterm g2.2
  exact ⟨ordersOk_trans g1.1 (ordersOk_trans g2.1 g3.1), g3.2⟩

/-- `_execute_paper_order` is well-behaved. -/
theorem goodOp_executePaperOrder (e : ExecutionEngine) (signal : Signal)
    (od : OrderDetails) (price now : ℚ) :
    GoodOp e (e.executePaperOrder signal od price now).1 := by
  unfold ExecutionEngine.executePaperOrder
  dsimp only
  exact goodOp_of_projections _ rfl rfl
    (goodOp_place_and_resolve e
      { order_id := "PAPER-" ++ toString e.total_orders
        side := od.side
        size := od.size
        price := some price
        status := .PENDING
        created_at := now }
      ("PAPER-" ++ toString e.total_orders)
      (fun o =>
        { o with
            status := .FILLED
            filled_at := some now
            filled_price := some
              (price * (1 + (if signal = .BUY then (1 : ℚ)/1000 else -(1/1000))))
            filled_size := some od.size })
      rfl (fun _ => rfl))

/-- Composite shape of the successful-placement path of `_execute_live_order`: create a
`PENDING` order, bind it, fill-wait on it.  Well-behaved. -/
theorem goodOp_place_and_wait (e : ExecutionEngine) (o : Order) (id : String)
    (polls : List PollResult) (c : Bool) (now : ℚ) (hp : o.status = .PENDING) :
    GoodOp e
      ((({ e with orders := e.orders ++ [o] }).insertPending id
        e.orders.length).waitForFill id polls c now).1 := by
  intro hInv
  have g1 := goodOp_appendOrder e o hInv
  have g2 := goodOp_insertPending { e with orders := e.orders ++ [o] } id
    e.orders.length o (List.get?_concat_length e.orders o) hp
    (pending_fresh e hInv) g1.2
  have g3 := goodOp_waitForFill _ id polls c now g2.2
  exact ⟨ordersOk_trans g1.1 (ordersOk_trans g2.1 g3.1), g3.2⟩

/-- `_execute_live_order` is well-behaved. -/
theorem goodOp_executeLiveOrder (e : ExecutionEngine) (signal : Signal)
    (od : OrderDetails) (price : ℚ) (oracle : LiveOracle) (now : ℚ) :
    GoodOp e (e.executeLiveOrder signal od price oracle now).1 := by
  unfold ExecutionEngine.executeLiveOrder
  cases oracle.place with
  | raised => exact goodOp_of_projections e rfl rfl (goodOp_refl e)
  | noOrderId => exact goodOp_refl e
  | ok oid =>
      dsimp only
      have hgood := goodOp_place_and_wait e
        { order_id := oid
          side := od.side
          size := od.size
          price := some price
          status := .PENDING
          created_at := now }
        oid oracle.polls oracle.cancelSucceeds now rfl
      split
      · exact goodOp_of_projections _ rfl rfl hgood
      · split
        · exact goodOp_of_projections _ rfl rfl hgood
        · split_ifs <;> exact goodOp_of_projections _ rfl rfl hgood

/-- `execute_signal` is well-behaved in every mode. -/
theorem goodOp_executeSignal (e : ExecutionEngine) (signal : Signal)
    (price strength : ℚ) (oracle : LiveOracle) (now : ℚ) :
    GoodOp e (e.executeSignal signal price strength oracle now).1 := by
  unfold ExecutionEngine.executeSignal
  dsimp only
  split_ifs
  · exact goodOp_refl e
  · exact goodOp_refl e
  · exact goodOp_executeTestOrder e signal _ price now
  · exact goodOp_executePaperOrder e signal _ price now
  · exact goodOp_executeLiveOrder e signal _ price oracle now

/-- Every engine operation is well-behaved. -/
theorem goodOp_applyEvent (e : ExecutionEngine) (ev : EngineEvent) :
    GoodOp e (e.applyEvent ev) := by
  cases ev with
  | executeSignalEvt signal price strength oracle now =>
      exact goodOp_executeSignal e signal price strength oracle now
  | waitForFillEvt id polls c now => exact goodOp_waitForFill e id polls c now
  | checkPendingEvt polls cancelOk now =>
      exact goodOp_checkPendingList polls cancelOk now _ e

/-- A fresh engine satisfies the invariant. -/
theorem inv_init (config : TradingConfig) (risk_manager : RiskManager) :
    (ExecutionEngine.init config risk_manager).Inv := by
  constructor
  · intro p hp
    cases hp
  · simp [ExecutionEngine.init]

/-- The invariant holds in every reachable engine state. -/
theorem inv_runEvents (evts : List EngineEvent) :
    ∀ e : ExecutionEngine, e.Inv → (runEvents e evts).Inv := by
  induction evts with
  | nil => intro e h; exact h
  | cons ev evts ih => intro e h; exact ih _ ((goodOp_applyEvent e ev) h).2

/-- Oracle value for events that never reach the gateway (test/paper modes). -/
def idleOracle : LiveOracle := { place := .noOrderId, polls := [], cancelSucceeds := true }

/-- The order created by the first test-mode BUY on a fresh engine over the default test
configuration (balance 0, so the computed size is 0·(1/10)/50000·1). -/
def c2WitnessOrder : Order := {
  order_id := "TEST-0"
  side := "buy"
  size := 0 * (1/10) / 50000 * 1
  price := some 50000
  status := .FILLED
  created_at := 0
  filled_at := some 0
  filled_price := some 50000
  filled_size := some (0 * (1/10) / 50000 * 1) }

/-- C2: across every sequence of engine operations (`execute_signal` in any mode,
`_wait_for_fill`, `check_pending_orders`) started from a fresh engine, each step moves
each existing Order's status only along `PENDING → FILLED | CANCELLED | FAILED`: a
terminal Order is bit-for-bit unchanged by any further operation and is never (re)bound
in the pending map. -/
theorem c2_order_status_one_way (config : TradingConfig) (risk_manager : RiskManager)
    (evts : List EngineEvent) (ev : EngineEvent) (i : ℕ) (o o' : Order)
    (h : (runEvents (ExecutionEngine.init config risk_manager) evts).orders.get? i
      = some o)
    (h' : ((runEvents (ExecutionEngine.init config risk_manager) evts).applyEvent
      ev).orders.get? i = some o') :
    (o'.status = o.status ∨ (o.status = .PENDING ∧ o'.status.isTerminal = true)) ∧
    (o.status.isTerminal = true →
      o' = o ∧
      ∀ p ∈ ((runEvents (ExecutionEngine.init config risk_manager) evts).applyEvent
        ev).pending_orders, p.2 ≠ i) := by
  have hInv := inv_runEvents evts _ (inv_init config risk_manager)
  obtain ⟨hOrd, hInv'⟩ := goodOp_applyEvent _ ev hInv
  obtain ⟨o'', hg'', hc⟩ := hOrd i o h
  have ho' : o'' = o' := Option.some.inj (hg''.symm.trans h')
  subst ho'
  constructor
  · rcases hc with rfl | ⟨hp, ht⟩
    · exact Or.inl rfl
    · exact Or.inr ⟨hp, ht⟩
  · intro hterm
    rcases hc with rfl | ⟨hp, ht⟩
    · refine ⟨rfl, ?_⟩
      intro p hpmem hcontra
      obtain ⟨oo, hgoo, hsoo⟩ := hInv'.1 p hpmem
      rw [hcontra] at hgoo
      have hoeq := Option.some.inj (hgoo.symm.trans h')
      rw [hoeq] at hsoo
      rw [hsoo] at hterm
      simp [OrderStatus.isTerminal] at hterm
    · rw [hp] at hterm
      simp [OrderStatus.isTerminal] at hterm

/-- C2 witness: one test-mode BUY creates a FILLED order; the following fill-wait step
leaves it untouched and the pending map stays empty of it. -/
theorem c2_order_status_one_way_witness :
    (c2WitnessOrder.status = c2WitnessOrder.status ∨
      (c2WitnessOrder.status = .PENDING ∧ c2WitnessOrder.status.isTerminal = true)) ∧
    (c2WitnessOrder.status.isTerminal = true →
      c2WitnessOrder = c2WitnessOrder ∧
      ∀ p ∈ ((runEvents (ExecutionEngine.init testConfig { config := testConfig })
        [.executeSignalEvt .BUY 50000 1 idleOracle 0]).applyEvent
        (.waitForFillEvt "TEST-0" [] true 0)).pending_orders, p.2 ≠ 0) :=
  c2_order_status_one_way testConfig { config := testConfig }
    [.executeSignalEvt .BUY 50000 1 idleOracle 0] (.waitForFillEvt "TEST-0" [] true 0)
    0 c2WitnessOrder c2WitnessOrder rfl rfl

/-- After a `_wait_for_fill` call the id can no longer be found in the pending map
(a no-op when it was never there; removed on every terminal outcome otherwise). -/
theorem lookupPending_removePending (e : ExecutionEngine) (id : String) :
    (e.removePending id).lookupPending id = none := by
  have hnone : (e.pending_orders.filter fun p => p.1 != id).find?
      (fun p => p.1 == id) = none := by
    rw [List.find?_eq_none]
    intro p hp
    have h2 := (List.mem_filter.mp hp).2
    simp only [bne_iff_ne, ne_eq] at h2
    simp [h2]
  unfold ExecutionEngine.lookupPending ExecutionEngine.removePending
  dsimp only
  rw [hnone]
  rfl

/-- The timeout path of the fill-wait loop: when every poll is non-terminal, a
succeeding cancel marks the order `CANCELLED`/"Order timeout", while a raising cancel
leaves the order object exactly as it was. -/
theorem waitForFillGo_timeout (e : ExecutionEngine) (id : String) (idx : ℕ) (o : Order)
    (now : ℚ) (hg : e.orders.get? idx = some o) :
    ∀ polls : List PollResult, (∀ r ∈ polls, r = .pendingOrError) →
      ((e.waitForFillGo id idx now true polls).1.getOrder? idx =
        some { o with status := .CANCELLED, error_message := some "Order timeout" }) ∧
      ((e.waitForFillGo id idx now false polls).1.getOrder? idx = some o) := by
  intro polls
  induction polls with
  | nil =>
      intro _
      constructor
      · unfold ExecutionEngine.waitForFillGo ExecutionEngine.modifyOrder
        rw [hg]
        dsimp only
        show (e.orders.set idx _).get? idx = _
        exact List.get?_set_eq_of_lt _ (List.get?_eq_some.mp hg).fst
      · exact hg
  | cons head rest ih =>
      intro hno
      have hh := hno head (List.mem_cons_self head rest)
      subst hh
      exact ih fun r hr => hno r (List.mem_cons_of_mem _ hr)

/-- C7 (amended): after any `_wait_for_fill` call the order id is gone from the pending
map (on every outcome — fill, venue cancellation, timeout with the cancel succeeding or
raising, and trivially when the id was never pending); on the timeout path the order is
marked CANCELLED with "Order timeout" as its error exactly when the gateway cancel call
returns — when the cancel call raises, the bare `except: pass` swallows the error *before*
the status assignment, so the order object is left unchanged (still PENDING, no error),
yet still removed from the pending map. -/
theorem c7_timeout_cancel_behavior :
    (∀ (e : ExecutionEngine) (id : String) (polls : List PollResult) (c : Bool) (now : ℚ),
      (e.waitForFill id polls c now).1.lookupPending id = none) ∧
    (∀ (e : ExecutionEngine) (id : String) (idx : ℕ) (o : Order)
      (polls : List PollResult) (now : ℚ),
      e.lookupPending id = some idx → e.orders.get? idx = some o →
      (∀ r ∈ polls, r = .pendingOrError) →
      ((e.waitForFill id polls true now).1.getOrder? idx =
        some { o with status := .CANCELLED, error_message := some "Order timeout" }) ∧
      ((e.waitForFill id polls false now).1.getOrder? idx = some o)) := by
  constructor
  · intro e id polls c now
    unfold ExecutionEngine.waitForFill
    cases hlook : e.lookupPending id with
    | none => exact hlook
    | some idx =>
        induction polls with
        | nil =>
            cases c
            · exact lookupPending_removePending e id
            · exact lookupPending_removePending _ id
        | cons head rest ih =>
            cases head with
            | filled avg fsz => exact lookupPending_removePending _ id
            | cancelledOrExpired st => exact lookupPending_removePending _ id
            | pendingOrError => exact ih
  · intro e id idx o polls now hlook hg hno
    unfold ExecutionEngine.waitForFill
    rw [hlook]
    exact waitForFillGo_timeout e id idx o now hg polls hno

/-- Live-mode configuration fixture. -/
def liveConfig : TradingConfig := { testConfig with trading_mode := "live" }

/-- A stale `PENDING` order known to the gateway as `LIVE-7`. -/
def stalePendingOrder : Order := {
  order_id := "LIVE-7"
  side := "buy"
  size := 2
  price := some 50000
  status := .PENDING
  created_at := 0 }

/-- A live-mode engine holding `LIVE-7` in its pending map. -/
def stalePendingEngine : ExecutionEngine := {
  config := liveConfig
  risk_manager := { config := liveConfig }
  orders := [stalePendingOrder]
  pending_orders := [("LIVE-7", 0)] }

/-- C7, counterexample: on a fill-wait that times out (no polls) with the gateway cancel
call raising, the order is *not* marked CANCELLED and no error is recorded — it stays
PENDING bit-for-bit — although it is still removed from the pending map; the claim's
"marks that order CANCELLED with 'timeout' recorded as its error — including when the
cancel call itself raises" fails at this input. -/
theorem c7_counterexample_cancel_raise_not_marked :
    ((stalePendingEngine.waitForFill "LIVE-7" [] false 0).1.getOrder? 0
      = some stalePendingOrder) ∧
    stalePendingOrder.status = .PENDING ∧
    stalePendingOrder.error_message = none ∧
    (stalePendingEngine.waitForFill "LIVE-7" [] false 0).1.pending_orders = [] :=
  ⟨rfl, rfl, rfl, rfl⟩

/-- C7 witness: on the stale-pending fixture, a timing-out fill-wait whose cancel
succeeds marks `LIVE-7` CANCELLED/"Order timeout", while one whose cancel raises leaves
the order untouched. -/
theorem c7_timeout_cancel_witness :
    ((stalePendingEngine.waitForFill "LIVE-7" [] true 0).1.getOrder? 0 =
      some
        { stalePendingOrder with
            status := .CANCELLED
            error_message := some "Order timeout" }) ∧
    ((stalePendingEngine.waitForFill "LIVE-7" [] false 0).1.getOrder? 0 =
      some stalePendingOrder) :=
  c7_timeout_cancel_behavior.2 stalePendingEngine "LIVE-7" 0 stalePendingOrder [] 0
    rfl rfl (by simp)

end TradeBot
